import Mathlib

/-!
Shallow embedding of the spotify_fetcher service (src/server.py).

The service is a single FastAPI endpoint, `GET /search`, which validates its
parameters, normalizes them, issues one remote search call through the
spotipy client, and reshapes the provider JSON into a fixed response schema
(list of name/uri pairs plus a count).  The whole handler body is wrapped in
a try/except that converts any exception into an empty response.

Provider JSON payloads are modelled by the inductive `JValue`; Python
operations on them (truthiness, the `in` operator, subscripting, dict.get,
iteration) are modelled by functions returning `Except PyErr`, so that the
handler's catch-all except-clause can be modelled as recovery from the
error branch.
-/

set_option autoImplicit false

namespace SpotifyFetcher

/-- A Python exception, as far as the handler can observe it: the handler
catches every `Exception` uniformly, so only the fact of raising matters. -/
inductive PyErr where
  | typeError
  | keyError
  | attributeError
  | validationError
  | transportError
  deriving DecidableEq, Repr

/-- A JSON-like Python value, as returned by the spotipy client (which parses
the provider HTTP payload with the standard json machinery). -/
inductive JValue where
  | jnull
  | jbool (b : Bool)
  | jnum (n : Int)
  | jstr (s : String)
  | jarr (xs : List JValue)
  | jobj (fields : List (String × JValue))

/-- Python truthiness of a JSON value: None and False are falsy, numbers are
falsy at zero, strings, lists and dicts are falsy when empty. -/
def truthy : JValue → Bool
  | .jnull => false
  | .jbool b => b
  | .jnum n => n != 0
  | .jstr s => !s.isEmpty
  | .jarr xs => !xs.isEmpty
  | .jobj fs => !fs.isEmpty

/-- Contiguous-sublist test on character lists, used to model the Python
substring form of the `in` operator. -/
def charsInfixOf (pat : List Char) : List Char → Bool
  | [] => pat.isEmpty
  | c :: cs => pat.isPrefixOf (c :: cs) || charsInfixOf pat cs

/-- The Python expression `key in v` for a string key: key membership on a
dict, substring test on a string, element equality on a list, and a
TypeError on anything non-iterable. -/
def pyContains (v : JValue) (key : String) : Except PyErr Bool :=
  match v with
  | .jobj fs => .ok (fs.any (fun p => p.1 == key))
  | .jarr xs => .ok (xs.any (fun x => match x with | .jstr s => s == key | _ => false))
  | .jstr s => .ok (charsInfixOf key.data s.data)
  | _ => .error .typeError

/-- The Python expression `v[key]` for a string key: dict lookup (KeyError
when absent), TypeError on any non-dict value. -/
def pySubscript (v : JValue) (key : String) : Except PyErr JValue :=
  match v with
  | .jobj fs =>
    match fs.find? (fun p => p.1 == key) with
    | some p => .ok p.2
    | none => .error .keyError
  | _ => .error .typeError

/-- The Python expression `v.get(key, dflt)`: defined on dicts only; any
other value lacks the attribute and raises. -/
def pyGetDefault (v : JValue) (key : String) (dflt : JValue) : Except PyErr JValue :=
  match v with
  | .jobj fs => .ok (((fs.find? (fun p => p.1 == key)).map Prod.snd).getD dflt)
  | _ => .error .attributeError

/-- Python iteration `for item in v`: a list yields its elements, a string
yields its characters as one-character strings, a dict yields its keys,
and anything else raises a TypeError. -/
def pyIter : JValue → Except PyErr (List JValue)
  | .jarr xs => .ok xs
  | .jstr s => .ok (s.data.map (fun c => .jstr (String.singleton c)))
  | .jobj fs => .ok (fs.map (fun p => .jstr p.1))
  | _ => .error .typeError

/-- Fuelled worker for Python str.replace: scan left to right, replacing
each non-overlapping occurrence of the (non-empty) pattern.  The fuel is an
upper bound on the scan length; each step consumes at least one character,
so fuel equal to the string length is always enough. -/
def pyReplaceFuel (pat rep : List Char) : Nat → List Char → List Char
  | _, [] => []
  | 0, s => s
  | fuel + 1, c :: cs =>
    if !pat.isEmpty && pat.isPrefixOf (c :: cs) then
      rep ++ pyReplaceFuel pat rep fuel ((c :: cs).drop pat.length)
    else
      c :: pyReplaceFuel pat rep fuel cs

/-- Python s.replace(pat, rep) for a non-empty pattern (the handler only
ever calls it with the one-character pattern underscore). -/
def pyReplace (s pat rep : List Char) : List Char :=
  pyReplaceFuel pat rep s.length s

/-- The handler line query.replace underscore-to-space. -/
def normalizeQuery (q : String) : String :=
  ⟨pyReplace q.data ['_'] [' ']⟩

/-- The handler line limit = min(max(1, limit), 50). -/
def clampLimit (limit : Int) : Int :=
  min (max 1 limit) 50

/-- The SearchType enum of server.py: the three valid search types. -/
inductive SearchType where
  | track
  | album
  | playlist
  deriving DecidableEq, Repr

/-- The string value of each SearchType enum member. -/
def SearchType.value : SearchType → String
  | .track => "track"
  | .album => "album"
  | .playlist => "playlist"

/-- FastAPI parsing of the type query parameter against the SearchType enum:
exact, case-sensitive match of one of the three member values. -/
def parseSearchType (s : String) : Option SearchType :=
  if s = "track" then some .track
  else if s = "album" then some .album
  else if s = "playlist" then some .playlist
  else none

/-- The SpotifyItem pydantic response model: name and uri, both str. -/
structure SpotifyItem where
  name : String
  uri : String
  deriving DecidableEq, Repr

/-- The SearchResponse pydantic response model. -/
structure SearchResponse where
  results : List SpotifyItem
  total : Nat
  deriving DecidableEq, Repr

/-- Constructing SpotifyItem(name=..., uri=...): the pydantic str fields
accept a Python str and raise ValidationError on anything else (in
particular on None). -/
def constructSpotifyItem (name uri : JValue) : Except PyErr SpotifyItem :=
  match name, uri with
  | .jstr n, .jstr u => .ok ⟨n, u⟩
  | _, _ => .error .validationError

/-- The for-loop of server.py lines 113-121: for each item, when it is a
dict containing both keys name and uri, construct a SpotifyItem from the
two looked-up values and append it; other items are skipped.  A raise from
the constructor aborts the loop (and is caught by the outer handler). -/
def simplifyItems : List JValue → Except PyErr (List SpotifyItem)
  | [] => .ok []
  | item :: rest =>
    match item with
    | .jobj fs =>
      match fs.find? (fun p => p.1 == "name"), fs.find? (fun p => p.1 == "uri") with
      | some pn, some pu =>
        match constructSpotifyItem pn.2 pu.2 with
        | .ok si => Except.map (fun l => si :: l) (simplifyItems rest)
        | .error e => .error e
      | _, _ => simplifyItems rest
    | _ => simplifyItems rest

/-- The f-string result_key: the type value with the letter s appended. -/
def resultKey (ty : SearchType) : String :=
  ty.value ++ "s"

/-- The arguments of the one sp.search call the handler makes. -/
structure ProviderCall where
  q : String
  ty : String
  limit : Int
  market : String
  deriving DecidableEq, Repr

/-- The sp.search call as the handler assembles it: normalized query, enum
value, clamped limit, fixed US market. -/
def providerCallOf (query : String) (ty : SearchType) (limit : Int) : ProviderCall :=
  { q := normalizeQuery query
  , ty := ty.value
  , limit := clampLimit limit
  , market := "US" }

/-- The body of the try-block of the search handler (server.py lines 80-125):
clamp the limit, normalize the query, issue the provider call, then walk the
response structure with the early returns of the source.  The transport
argument stands for the spotipy client: it maps the assembled call either to
a parsed JSON value or to a raised exception. -/
def searchBody (query : String) (ty : SearchType) (limit : Int)
    (transport : ProviderCall → Except PyErr JValue) :
    Except PyErr SearchResponse :=
  match transport (providerCallOf query ty limit) with
  | .error e => .error e
  | .ok results =>
    if truthy results = false then .ok ⟨[], 0⟩
    else
      match pyContains results (resultKey ty) with
      | .error e => .error e
      | .ok false => .ok ⟨[], 0⟩
      | .ok true =>
        match pySubscript results (resultKey ty) with
        | .error e => .error e
        | .ok sec =>
          match pyGetDefault sec "items" (.jarr []) with
          | .error e => .error e
          | .ok items =>
            if truthy items = false then .ok ⟨[], 0⟩
            else
              match pyIter items with
              | .error e => .error e
              | .ok itemList =>
                match simplifyItems itemList with
                | .error e => .error e
                | .ok simplified => .ok ⟨simplified, simplified.length⟩

/-- The full search handler: the try-block body with the except-clause of
lines 127-130, which converts any exception into the empty response. -/
def search (query : String) (ty : SearchType) (limit : Int)
    (transport : ProviderCall → Except PyErr JValue) : SearchResponse :=
  match searchBody query ty limit transport with
  | .ok r => r
  | .error _ => ⟨[], 0⟩

/-- What the service as a whole produces for one request: either an HTTP
error status (validation failure) or a successful SearchResponse, together
with the list of provider calls issued while handling the request. -/
structure ServiceOutcome where
  response : Except Nat SearchResponse
  calls : List ProviderCall
  deriving Repr

/-- One request through the service: FastAPI validates the type parameter
against the SearchType enum before the handler runs, answering 422 with no
provider call on failure; otherwise the handler runs and issues exactly one
sp.search call. -/
def handleRequest (query tyStr : String) (limit : Int)
    (transport : ProviderCall → Except PyErr JValue) : ServiceOutcome :=
  match parseSearchType tyStr with
  | none => ⟨.error 422, []⟩
  | some ty => ⟨.ok (search query ty limit transport), [providerCallOf query ty limit]⟩

/-- Modelled from the spec: the fixed lookup table of design note 9,
track to tracks, album to albums, playlist to playlists. -/
def specResultKeyTable : SearchType → String
  | .track => "tracks"
  | .album => "albums"
  | .playlist => "playlists"

/-- Analysis helper: the value the loop of lines 113-121 contributes for one
item when no exception occurs: a SpotifyItem exactly when the item is a dict
with both keys present and both looked-up values strings. -/
def acceptsItem (item : JValue) : Option SpotifyItem :=
  match item with
  | .jobj fs =>
    match fs.find? (fun p => p.1 == "name"), fs.find? (fun p => p.1 == "uri") with
    | some (_, .jstr n), some (_, .jstr u) => some ⟨n, u⟩
    | _, _ => none
  | _ => none

/-- Analysis helper: whether one item makes the loop of lines 113-121 raise:
a dict with both keys present but a non-string value under one of them. -/
def itemRaises (item : JValue) : Bool :=
  match item with
  | .jobj fs =>
    match fs.find? (fun p => p.1 == "name"), fs.find? (fun p => p.1 == "uri") with
    | some pn, some pu =>
      match pn.2, pu.2 with
      | .jstr _, .jstr _ => false
      | _, _ => true
    | _, _ => false
  | _ => false

/-! Helper lemmas -/

theorem parseSearchType_value (ty : SearchType) : parseSearchType ty.value = some ty := by
  cases ty <;> rfl

/-! Claim theorems -/

/-- C3: for every integer limit L, the limit actually used for the provider
call equals min(max(1, L), 50): the one call the request issues carries the
clamped limit. -/
theorem limit_used_is_clamped (q : String) (ty : SearchType) (L : Int)
    (t : ProviderCall → Except PyErr JValue) :
    (handleRequest q ty.value L t).calls = [providerCallOf q ty L]
    ∧ (providerCallOf q ty L).limit = min (max 1 L) 50 := by
  refine ⟨?_, rfl⟩
  simp [handleRequest, parseSearchType_value]

/-- C8: the key the adapter looks up in the provider payload, derived by
appending the letter s to the enum value, agrees with the fixed lookup
table track-tracks, album-albums, playlist-playlists on all three values. -/
theorem result_key_matches_table (ty : SearchType) :
    resultKey ty = specResultKeyTable ty := by
  cases ty <;> rfl

/-- C7: a request whose type parameter is none of track, album, playlist
(case-sensitively) is answered with a 422 client error and issues zero
provider calls. -/
theorem invalid_type_rejected (q tyStr : String) (L : Int)
    (t : ProviderCall → Except PyErr JValue)
    (h1 : tyStr ≠ "track") (h2 : tyStr ≠ "album") (h3 : tyStr ≠ "playlist") :
    handleRequest q tyStr L t = ⟨.error 422, []⟩ := by
  simp [handleRequest, parseSearchType, h1, h2, h3]

/-- Witness for C7 at the concrete unrecognized type artist. -/
theorem invalid_type_rejected_witness :
    handleRequest "q" "artist" 5 (fun _ => .ok .jnull) = ⟨.error 422, []⟩ :=
  invalid_type_rejected "q" "artist" 5 (fun _ => .ok .jnull)
    (by decide) (by decide) (by decide)

/-- C9: the handler is deterministic with no hidden state: two transports
that answer the one assembled provider call identically produce identical
service outcomes for the same request. -/
theorem handler_deterministic (q : String) (ty : SearchType) (L : Int)
    (t1 t2 : ProviderCall → Except PyErr JValue)
    (h : t1 (providerCallOf q ty L) = t2 (providerCallOf q ty L)) :
    handleRequest q ty.value L t1 = handleRequest q ty.value L t2 := by
  simp [handleRequest, parseSearchType_value, search, searchBody, h]

/-- Witness for C9 at a concrete repeated request. -/
theorem handler_deterministic_witness :
    handleRequest "a" SearchType.track.value 5 (fun _ => Except.ok JValue.jnull)
      = handleRequest "a" SearchType.track.value 5 (fun _ => Except.ok JValue.jnull) :=
  handler_deterministic "a" SearchType.track 5
    (fun _ => Except.ok JValue.jnull) (fun _ => Except.ok JValue.jnull) rfl

/-- C1: when the transport raises on the search call, the handler catches
the exception and returns the empty SearchResult with a success status. -/
theorem transport_failure_yields_empty (q : String) (ty : SearchType) (L : Int)
    (t : ProviderCall → Except PyErr JValue) (e : PyErr)
    (h : t (providerCallOf q ty L) = .error e) :
    search q ty L t = ⟨[], 0⟩
    ∧ (handleRequest q ty.value L t).response = .ok ⟨[], 0⟩ := by
  have hs : search q ty L t = ⟨[], 0⟩ := by
    simp [search, searchBody, h]
  exact ⟨hs, by simp [handleRequest, parseSearchType_value, hs]⟩

/-- Witness for C1 at a concrete always-raising transport. -/
theorem transport_failure_yields_empty_witness :
    search "q" SearchType.track 5 (fun _ => .error .transportError) = ⟨[], 0⟩
    ∧ (handleRequest "q" SearchType.track.value 5
        (fun _ => .error .transportError)).response = .ok ⟨[], 0⟩ :=
  transport_failure_yields_empty "q" SearchType.track 5
    (fun _ => .error .transportError) .transportError rfl

theorem searchBody_ok_total (q : String) (ty : SearchType) (L : Int)
    (t : ProviderCall → Except PyErr JValue) (r : SearchResponse)
    (h : searchBody q ty L t = .ok r) : r.total = r.results.length := by
  unfold searchBody at h
  repeat' split at h
  all_goals first
    | (cases h; rfl)
    | simp at h

/-- C4: on every return path of the handler, the total field equals the
length of the results list actually returned. -/
theorem total_eq_results_length (q : String) (ty : SearchType) (L : Int)
    (t : ProviderCall → Except PyErr JValue) :
    (search q ty L t).total = (search q ty L t).results.length := by
  unfold search
  split
  next r hr => exact searchBody_ok_total q ty L t r hr
  next e he => rfl

/-- C5: an untruthy provider response, a response lacking the pluralized
key, and a response whose items list is absent or empty all yield the empty
SearchResult with a success status. -/
theorem structural_anomaly_yields_empty (q : String) (ty : SearchType) (L : Int)
    (t : ProviderCall → Except PyErr JValue) (r : JValue)
    (htr : t (providerCallOf q ty L) = .ok r)
    (h : truthy r = false
      ∨ pyContains r (resultKey ty) = .ok false
      ∨ (∃ sec items, pyContains r (resultKey ty) = .ok true
          ∧ pySubscript r (resultKey ty) = .ok sec
          ∧ pyGetDefault sec "items" (.jarr []) = .ok items
          ∧ truthy items = false)) :
    search q ty L t = ⟨[], 0⟩
    ∧ (handleRequest q ty.value L t).response = .ok ⟨[], 0⟩ := by
  have hs : search q ty L t = ⟨[], 0⟩ := by
    rcases h with h1 | h2 | ⟨sec, items, hc, hsub, hget, hti⟩
    · simp [search, searchBody, htr, h1]
    · by_cases htru : truthy r = false
      · simp [search, searchBody, htr, htru]
      · simp [search, searchBody, htr, htru, h2]
    · by_cases htru : truthy r = false
      · simp [search, searchBody, htr, htru]
      · simp [search, searchBody, htr, htru, hc, hsub, hget, hti]
  exact ⟨hs, by simp [handleRequest, parseSearchType_value, hs]⟩

/-- Witness for C5 at a concrete response lacking the tracks key. -/
theorem structural_anomaly_yields_empty_witness :
    search "q" SearchType.track 5 (fun _ => .ok (.jobj [("albums", .jnull)])) = ⟨[], 0⟩
    ∧ (handleRequest "q" SearchType.track.value 5
        (fun _ => .ok (.jobj [("albums", .jnull)]))).response = .ok ⟨[], 0⟩ :=
  structural_anomaly_yields_empty "q" SearchType.track 5
    (fun _ => .ok (.jobj [("albums", .jnull)])) (.jobj [("albums", .jnull)]) rfl
    (Or.inr (Or.inl rfl))

theorem pyReplaceFuel_underscore (fuel : Nat) :
    ∀ s : List Char, s.length ≤ fuel →
      pyReplaceFuel ['_'] [' '] fuel s
        = s.map (fun c => if c = '_' then ' ' else c) := by
  induction fuel with
  | zero =>
    intro s hs
    cases s with
    | nil => rfl
    | cons c cs => simp at hs
  | succ n ih =>
    intro s hs
    cases s with
    | nil => rfl
    | cons c cs =>
      have hcs : cs.length ≤ n := Nat.le_of_succ_le_succ (by simpa using hs)
      by_cases hc : c = '_'
      · subst hc
        simp [pyReplaceFuel, List.isPrefixOf, ih cs hcs]
      · simp [pyReplaceFuel, List.isPrefixOf, hc, ih cs hcs]
        exact fun h => absurd h.symm hc

/-- C6: query normalization replaces every underscore with a space and does
nothing else: it equals the character-wise substitution map, it sends
foo_bar_baz to foo bar baz, and it leaves underscore-free strings
unchanged. -/
theorem normalize_query_spec :
    (∀ q : String,
      normalizeQuery q = ⟨q.data.map (fun c => if c = '_' then ' ' else c)⟩)
    ∧ normalizeQuery "foo_bar_baz" = "foo bar baz"
    ∧ (∀ q : String, ('_' ∈ q.data → False) → normalizeQuery q = q) := by
  have hmap : ∀ q : String,
      normalizeQuery q = ⟨q.data.map (fun c => if c = '_' then ' ' else c)⟩ := by
    intro q
    unfold normalizeQuery pyReplace
    rw [pyReplaceFuel_underscore q.data.length q.data (Nat.le_refl _)]
  refine ⟨hmap, by decide, ?_⟩
  intro q hq
  rw [hmap q]
  have hid : q.data.map (fun c => if c = '_' then ' ' else c) = q.data := by
    have := List.map_congr_left (l := q.data)
      (f := fun c => if c = '_' then ' ' else c) (g := fun c => c)
      (fun c hc => by
        have hne : c ≠ '_' := fun h => hq (h ▸ hc)
        simp [hne])
    simpa using this
  rw [hid]

/-- Witness for C6 at a concrete underscore-free string. -/
theorem normalize_query_spec_witness : normalizeQuery "foobar" = "foobar" :=
  normalize_query_spec.2.2 "foobar" (by decide)

theorem simplifyItems_ok_of_no_raise :
    ∀ xs : List JValue, (∀ i ∈ xs, itemRaises i = false) →
      simplifyItems xs = .ok (xs.filterMap acceptsItem) := by
  intro xs
  induction xs with
  | nil => intro _; rfl
  | cons item rest ih =>
    intro h
    have hitem : itemRaises item = false := h item (by simp)
    have hrest := ih (fun i hi => h i (by simp [hi]))
    clear h ih
    cases item with
    | jobj fs =>
      cases hn : fs.find? (fun p => p.1 == "name") with
      | none => simp [simplifyItems, acceptsItem, hn, hrest]
      | some pn =>
        obtain ⟨k1, v1⟩ := pn
        cases hu : fs.find? (fun p => p.1 == "uri") with
        | none => simp [simplifyItems, acceptsItem, hn, hu, hrest]
        | some pu =>
          obtain ⟨k2, v2⟩ := pu
          simp only [itemRaises, hn, hu] at hitem
          cases v1 <;> cases v2 <;> simp at hitem <;>
            simp [simplifyItems, acceptsItem, hn, hu,
              constructSpotifyItem, hrest, Except.map]
    | jnull => simp [simplifyItems, acceptsItem, hrest]
    | jbool b => simp [simplifyItems, acceptsItem, hrest]
    | jnum n => simp [simplifyItems, acceptsItem, hrest]
    | jstr s => simp [simplifyItems, acceptsItem, hrest]
    | jarr ys => simp [simplifyItems, acceptsItem, hrest]

theorem simplifyItems_error_of_raise :
    ∀ xs : List JValue, (∃ i ∈ xs, itemRaises i = true) →
      ∃ e, simplifyItems xs = Except.error e := by
  intro xs
  induction xs with
  | nil =>
    rintro ⟨i, hi, _⟩
    simp at hi
  | cons item rest ih =>
    rintro ⟨i, hi, hr⟩
    by_cases hhead : itemRaises item = true
    · clear ih hi hr
      refine ⟨.validationError, ?_⟩
      cases item with
      | jobj fs =>
        cases hn : fs.find? (fun p => p.1 == "name") with
        | none => simp [itemRaises, hn] at hhead
        | some pn =>
          obtain ⟨k1, v1⟩ := pn
          cases hu : fs.find? (fun p => p.1 == "uri") with
          | none => simp [itemRaises, hn, hu] at hhead
          | some pu =>
            obtain ⟨k2, v2⟩ := pu
            simp only [itemRaises, hn, hu] at hhead
            cases v1 <;> cases v2 <;> simp at hhead <;>
              simp [simplifyItems, hn, hu, constructSpotifyItem]
      | jnull => simp [itemRaises] at hhead
      | jbool b => simp [itemRaises] at hhead
      | jnum n => simp [itemRaises] at hhead
      | jstr s => simp [itemRaises] at hhead
      | jarr ys => simp [itemRaises] at hhead
    · have hmem : i ∈ rest := by
        rcases List.mem_cons.mp hi with h | h
        · exact absurd (h ▸ hr) hhead
        · exact h
      obtain ⟨e, he⟩ := ih ⟨i, hmem, hr⟩
      clear ih hi hr hmem
      refine ⟨e, ?_⟩
      cases item with
      | jobj fs =>
        cases hn : fs.find? (fun p => p.1 == "name") with
        | none => simp [simplifyItems, hn, he]
        | some pn =>
          obtain ⟨k1, v1⟩ := pn
          cases hu : fs.find? (fun p => p.1 == "uri") with
          | none => simp [simplifyItems, hn, hu, he]
          | some pu =>
            obtain ⟨k2, v2⟩ := pu
            simp only [itemRaises, hn, hu] at hhead
            cases v1 <;> cases v2 <;> simp at hhead <;>
              simp [simplifyItems, hn, hu, constructSpotifyItem, he, Except.map]
      | jnull => simp [simplifyItems, he]
      | jbool b => simp [simplifyItems, he]
      | jnum n => simp [simplifyItems, he]
      | jstr s => simp [simplifyItems, he]
      | jarr ys => simp [simplifyItems, he]

theorem search_with_items (q : String) (ty : SearchType) (L : Int)
    (t : ProviderCall → Except PyErr JValue) (xs : List JValue)
    (htr : t (providerCallOf q ty L)
      = .ok (.jobj [(resultKey ty, .jobj [("items", .jarr xs)])])) :
    search q ty L t
      = match simplifyItems xs with
        | .ok l => ⟨l, l.length⟩
        | .error _ => ⟨[], 0⟩ := by
  cases xs with
  | nil =>
    simp [search, searchBody, htr, truthy, pyContains, pySubscript,
      pyGetDefault, pyIter, List.find?, simplifyItems]
  | cons a as =>
    cases hsi : simplifyItems (a :: as) with
    | ok l =>
      simp [search, searchBody, htr, truthy, pyContains, pySubscript,
        pyGetDefault, pyIter, List.find?, hsi]
    | error e =>
      simp [search, searchBody, htr, truthy, pyContains, pySubscript,
        pyGetDefault, pyIter, List.find?, hsi]

/-- C2 counterexample: a provider items list mixing the well-formed record
Song A with a record whose name key holds null is NOT filtered item by item:
the null value passes the key-membership check, the SpotifyItem constructor
raises, and the catch-all turns the whole call into the empty response, so
the well-formed Song A is dropped, contradicting the claim that such items
are silently skipped and the well-formed items still returned. -/
theorem mixed_items_claim_counterexample :
    search "q" SearchType.track 5
      (fun _ => .ok (.jobj [("tracks", .jobj [("items", .jarr
        [ .jobj [("name", .jstr "Song A"), ("uri", .jstr "spotify:track:123")]
        , .jobj [("name", .jnull), ("uri", .jstr "spotify:track:999")] ])])]))
      = ⟨[], 0⟩
    ∧ (⟨[], 0⟩ : SearchResponse) ≠ ⟨[⟨"Song A", "spotify:track:123"⟩], 1⟩ := by
  constructor
  · decide
  · decide

/-- C2 amended: an item is accepted into the output iff it is a record with
both a name and a uri key holding string values; records missing either key
and non-record entries are silently skipped; but when some record has both
keys with a non-string value (such as null), the item constructor raises and
the whole call degrades to the empty response, dropping the well-formed
items. -/
theorem mixed_items_behavior (q : String) (ty : SearchType) (L : Int)
    (t : ProviderCall → Except PyErr JValue) (xs : List JValue)
    (htr : t (providerCallOf q ty L)
      = .ok (.jobj [(resultKey ty, .jobj [("items", .jarr xs)])])) :
    ((∀ i ∈ xs, itemRaises i = false) →
      search q ty L t
        = ⟨xs.filterMap acceptsItem, (xs.filterMap acceptsItem).length⟩)
    ∧ ((∃ i ∈ xs, itemRaises i = true) → search q ty L t = ⟨[], 0⟩) := by
  constructor
  · intro hall
    rw [search_with_items q ty L t xs htr, simplifyItems_ok_of_no_raise xs hall]
  · intro hex
    obtain ⟨e, he⟩ := simplifyItems_error_of_raise xs hex
    rw [search_with_items q ty L t xs htr, he]

/-- Witness for the amended C2 at the concrete mixed list of the spec: one
well-formed record and one record missing its uri. -/
theorem mixed_items_behavior_witness :
    search "q" SearchType.track 5
      (fun _ => .ok (.jobj [("tracks", .jobj [("items", .jarr
        [ .jobj [("name", .jstr "Song A"), ("uri", .jstr "spotify:track:123")]
        , .jobj [("name", .jstr "Song B")] ])])]))
      = ⟨[⟨"Song A", "spotify:track:123"⟩], 1⟩ :=
  ((mixed_items_behavior "q" SearchType.track 5
      (fun _ => .ok (.jobj [("tracks", .jobj [("items", .jarr
        [ .jobj [("name", .jstr "Song A"), ("uri", .jstr "spotify:track:123")]
        , .jobj [("name", .jstr "Song B")] ])])]))
      [ .jobj [("name", .jstr "Song A"), ("uri", .jstr "spotify:track:123")]
      , .jobj [("name", .jstr "Song B")] ]
      rfl).1 (by decide)).trans (by decide)

/-- C10 counterexample: the record Song C passes the acceptance check of the
loop (it is a dict containing both keys) but holds null under uri, so the
whole call collapses to the empty response: the results are not the
order-preserving subsequence of accepted items, which would contain the
earlier well-formed Song B. -/
theorem order_claim_counterexample :
    search "q" SearchType.album 5
      (fun _ => .ok (.jobj [("albums", .jobj [("items", .jarr
        [ .jobj [("name", .jstr "Song B"), ("uri", .jstr "spotify:album:9")]
        , .jobj [("name", .jstr "Song C"), ("uri", .jnull)] ])])]))
      = ⟨[], 0⟩
    ∧ acceptsItem (.jobj [("name", .jstr "Song B"), ("uri", .jstr "spotify:album:9")])
        = some ⟨"Song B", "spotify:album:9"⟩
    ∧ ([] : List SpotifyItem) ≠ [⟨"Song B", "spotify:album:9"⟩] := by
  refine ⟨by decide, by decide, by decide⟩

/-- C10 amended: provided no item makes the constructor raise (every record
holding both keys holds strings under them), the results are exactly the
order-preserving projection of the items list through the acceptance map,
carrying name and uri over verbatim. -/
theorem accepted_items_order_preserved (q : String) (ty : SearchType) (L : Int)
    (t : ProviderCall → Except PyErr JValue) (xs : List JValue)
    (htr : t (providerCallOf q ty L)
      = .ok (.jobj [(resultKey ty, .jobj [("items", .jarr xs)])]))
    (hall : ∀ i ∈ xs, itemRaises i = false) :
    (search q ty L t).results = xs.filterMap acceptsItem := by
  rw [search_with_items q ty L t xs htr, simplifyItems_ok_of_no_raise xs hall]

/-- Witness for the amended C10 at a concrete list of two well-formed
records around one skipped malformed record, showing the preserved order. -/
theorem accepted_items_order_preserved_witness :
    (search "q" SearchType.album 5
      (fun _ => .ok (.jobj [("albums", .jobj [("items", .jarr
        [ .jobj [("name", .jstr "B1"), ("uri", .jstr "u1")]
        , .jobj [("name", .jstr "skipme")]
        , .jobj [("name", .jstr "B2"), ("uri", .jstr "u2")] ])])]))).results
      = [⟨"B1", "u1"⟩, ⟨"B2", "u2"⟩] :=
  (accepted_items_order_preserved "q" SearchType.album 5
      (fun _ => .ok (.jobj [("albums", .jobj [("items", .jarr
        [ .jobj [("name", .jstr "B1"), ("uri", .jstr "u1")]
        , .jobj [("name", .jstr "skipme")]
        , .jobj [("name", .jstr "B2"), ("uri", .jstr "u2")] ])])]))
      [ .jobj [("name", .jstr "B1"), ("uri", .jstr "u1")]
      , .jobj [("name", .jstr "skipme")]
      , .jobj [("name", .jstr "B2"), ("uri", .jstr "u2")] ]
      rfl (by decide)).trans (by decide)

end SpotifyFetcher
